import Mathlib

/-
Verification of the nostos-site serverless handlers.

The repository has two source files:
  * netlify/functions/create-checkout-session.js  (Session Initiator)
  * netlify/functions/stripe-webhook.js           (Payment-Event Receiver;
    the file holds two historical variants: a tag-based one and a
    sequence-based one)

The JavaScript is shallowly embedded below.  JS strings are Lean strings,
JS `undefined`/`null` is `Option.none`, JS objects are Lean structures or
association lists, and every external round trip (Stripe signature
verification, Stripe session creation, fetch calls to the Kit API) is an
oracle passed to the handler.  Each handler returns, besides the HTTP
response, the ordered trace of outbound calls it issued, so that claims
about call ordering and about calls never being made are statable.
-/

/-- Truthiness of a JS value that is either a string or undefined:
`undefined` and the empty string are falsy. -/
def jsTruthy : Option String → Bool
  | none => false
  | some s => s ≠ ""

/-- JS logical-or over optional strings: returns the first truthy operand,
otherwise the second operand as given. -/
def jsOr (a b : Option String) : Option String :=
  if jsTruthy a then a else b

/-- Result of a chain `a || b || ... || ""`: the first truthy alias value,
or the empty string when none is truthy. -/
def jsOrChain : List (Option String) → String
  | [] => ""
  | a :: rest => if jsTruthy a then a.getD "" else jsOrChain rest

/-- Whitespace for the purposes of the JS `trim` method and of the regex
class `\s` (the common members; exotic Unicode spaces are listed too). -/
def isJsSpace (c : Char) : Bool :=
  c == ' ' || c == '\t' || c == '\n' || c == '\r' ||
  c.toNat == 0x0b || c.toNat == 0x0c || c.toNat == 0xa0 ||
  c.toNat == 0x1680 || c.toNat == 0x2028 || c.toNat == 0x2029 ||
  c.toNat == 0x202f || c.toNat == 0x205f || c.toNat == 0x3000 ||
  c.toNat == 0xfeff || (0x2000 ≤ c.toNat && c.toNat ≤ 0x200a)

/-- JS `String.prototype.trim`: strip whitespace from both ends. -/
def jsTrim (s : String) : String :=
  let cs := (((s.data.dropWhile isJsSpace).reverse.dropWhile isJsSpace).reverse)
  String.mk cs

/-- Lower-casing as the handlers use it (JS `toLowerCase`), mapped over
the characters; ASCII letters are the only ones the handlers rely on. -/
def jsToLower (s : String) : String :=
  String.mk (s.data.map Char.toLower)

/-- Leading-match test on character lists: does the first list start the
second? -/
def chStartsWith : List Char → List Char → Bool
  | [], _ => true
  | _ :: _, [] => false
  | a :: as, b :: bs => a == b && chStartsWith as bs

/-- Substring test on character lists: does `needle` occur in `hay`? -/
def chContains (needle : List Char) : List Char → Bool
  | [] => chStartsWith needle []
  | c :: cs => chStartsWith needle (c :: cs) || chContains needle cs

/-- Substring test on strings, mirroring JS `String.prototype.includes`. -/
def strIncludes (hay needle : String) : Bool :=
  chContains needle.data hay.data

/-- Test of the regex `/^\S+@\S+\.\S+$/` from create-checkout-session.js
line 38: the whole string is whitespace-free and splits as
`a ++ "@" ++ b ++ "." ++ c` with `a`, `b`, `c` non-empty (the `.` after
the `@`). -/
def emailShapeTest (s : String) : Bool :=
  let cs := s.data
  let n := cs.length
  cs.all (fun c => !(isJsSpace c)) &&
  (List.range n).any (fun i =>
    decide (1 ≤ i) && (cs.getD i ' ' == '@') &&
    (List.range n).any (fun j =>
      decide (i + 2 ≤ j) && decide (j + 2 ≤ n) && (cs.getD j ' ' == '.')))

/-- HTTP headers of the inbound event: a JS object modelled as an ordered
association list (or absent entirely). -/
abbrev Headers : Type := Option (List (String × String))

/-- Embedding of `getHeader` (stripe-webhook.js lines 13-20, identical in
both variants): exact lookup first, returned only when truthy, then a
case-insensitive scan over the keys; `none` models the JS `null`. -/
def getHeader (headers : Headers) (key : String) : Option String :=
  match headers with
  | none => none
  | some hs =>
    let direct := (hs.find? (fun kv => kv.1 = key)).map (·.2)
    if jsTruthy direct then direct
    else
      let wanted := jsToLower key
      match hs.find? (fun kv => jsToLower kv.1 = wanted) with
      | some kv => if kv.1 = "" then none else some kv.2
      | none => none

/-- Body of a webhook HTTP response, mirroring the JS object literals
passed to `response(...)`; absent fields are `none`.  The `idempotent`
field only appears in the spec-modelled idempotency variant. -/
structure RespBody where
  error : Option String := none
  missing : Option (List String) := none
  received : Option Bool := none
  ignored : Option Bool := none
  type : Option String := none
  processed : Option Bool := none
  idempotent : Option Bool := none
deriving Repr, DecidableEq

/-- An HTTP response as built by the `response` helper. -/
structure HttpResponse where
  statusCode : Nat
  body : RespBody
deriving Repr, DecidableEq

/-- Embedding of the `response` helper (stripe-webhook.js lines 5-11). -/
def response (statusCode : Nat) (body : RespBody) : HttpResponse :=
  { statusCode := statusCode, body := body }

/-- One outbound POST to the Kit API: the path under the base URL and the
JSON payload fields actually sent by the handlers. -/
structure KitCall where
  path : String
  email_address : String
  first_name : Option String := none
  fields : Option (List (String × String)) := none
deriving Repr, DecidableEq

/-- What `kitPost` (tag variant, lines 22-41) hands back to the handler:
the HTTP status and the raw response text (`data` is recomputed from
`raw`, so it is not stored separately). -/
structure KitResult where
  status : Nat
  raw : String
deriving Repr, DecidableEq

/-- Outcome of one fetch round trip: `Except.error` models a rejected
promise (network failure), caught by the top-level try/catch. -/
abbrev KitOracle : Type := KitCall → Except String KitResult

/-- Embedding of `isSubscriberAlreadyExists` (tag variant, lines 43-46).
In the source, `text` is `result.raw || JSON.stringify(result.data)`
lower-cased; when `raw` is empty, `data` is `null` and the stringified
fallback is the four characters of the word null. -/
def isSubscriberAlreadyExists (raw : String) : Bool :=
  let text := jsToLower (if raw = "" then ("null" : String) else raw)
  strIncludes text ("already exists") ||
  strIncludes text ("has already been taken") ||
  strIncludes text ("email_address")

/-- Environment variables read by the webhook handlers (process.env):
each is a string or undefined; the empty string is falsy like undefined. -/
structure WebhookEnv where
  stripeKey : Option String := none
  webhookSecret : Option String := none
  kitApiKey : Option String := none
  kitTagId : Option String := none
  kitSequenceId : Option String := none
deriving Repr, DecidableEq

/-- The inbound Netlify event as far as the webhook handlers read it. -/
structure WebhookEvent where
  httpMethod : String
  headers : Headers
  isBase64Encoded : Bool := false
  body : Option String := none

/-- Customer details carried inside a checkout session. -/
structure CustomerDetails where
  email : Option String := none
deriving Repr, DecidableEq

/-- Session metadata fields the handlers read. -/
structure SessionMeta where
  full_name : Option String := none
  first_name : Option String := none
  objective : Option String := none
deriving Repr, DecidableEq

/-- The `data.object` of a `checkout.session.completed` event. -/
structure CheckoutSessionObj where
  customer_details : Option CustomerDetails := none
  customer_email : Option String := none
  metadata : Option SessionMeta := none
deriving Repr, DecidableEq

/-- A verified Stripe event envelope as returned by `constructEvent`. -/
structure StripeEvent where
  type : String
  object : CheckoutSessionObj
deriving Repr, DecidableEq

/-- Full observable outcome of one webhook invocation: the HTTP response,
the ordered trace of Kit API calls issued, and whether signature
verification (`constructEvent`) was attempted. -/
structure WebhookOutcome where
  resp : HttpResponse
  kitCalls : List KitCall
  verifyAttempted : Bool
deriving Repr, DecidableEq

/-- Email extraction shared by both variants (lines 96 and 231):
`(session.customer_details && session.customer_details.email) ||
session.customer_email || ""`. -/
def sessionEmail (session : CheckoutSessionObj) : String :=
  jsOrChain [session.customer_details.bind (·.email), session.customer_email]

/-- The upsert call issued by the tag variant (lines 106-109). -/
def v1UpsertCall (email fullName : String) : KitCall :=
  { path := "/subscribers", email_address := email, first_name := some fullName }

/-- The tag call issued by the tag variant (lines 125-127). -/
def v1TagCall (tagId email : String) : KitCall :=
  { path := "/tags/" ++ tagId ++ "/subscribers", email_address := email }

/-- Tag-variant success check on a Kit response (lines 111 and 129):
exactly status 200 or 201. -/
def v1IsSuccess (r : KitResult) : Bool :=
  r.status == 200 || r.status == 201

/-- Forwarding steps of the tag variant once a non-empty email is in hand
(stripe-webhook.js lines 106-137): upsert, already-exists tolerance, then
the tag call.  Oracle errors model thrown exceptions reaching the catch at
line 138. -/
def v1Forward (kit : KitOracle) (tagId email fullName : String) :
    RespBody × List KitCall :=
  let up := v1UpsertCall email fullName
  match kit up with
  | Except.error _ => ({ received := some true, processed := some false }, [up])
  | Except.ok createResult =>
    if !(v1IsSuccess createResult) && !(isSubscriberAlreadyExists createResult.raw) then
      ({ received := some true, processed := some false }, [up])
    else
      let tg := v1TagCall tagId email
      match kit tg with
      | Except.error _ => ({ received := some true, processed := some false }, [up, tg])
      | Except.ok tagResult =>
        if !(v1IsSuccess tagResult) then
          ({ received := some true, processed := some false }, [up, tg])
        else
          ({ received := some true, processed := some true }, [up, tg])

/-- Name extraction of the tag variant (line 97):
`(session.metadata && (session.metadata.full_name ||
session.metadata.first_name)) || ""`. -/
def v1FullName (session : CheckoutSessionObj) : String :=
  jsOrChain [session.metadata.bind (·.full_name), session.metadata.bind (·.first_name)]

/-- Processing of a verified `checkout.session.completed` event in the tag
variant (the try block, stripe-webhook.js lines 94-141). -/
def v1Process (kit : KitOracle) (tagId : String) (session : CheckoutSessionObj) :
    RespBody × List KitCall :=
  let email := sessionEmail session
  let fullName := v1FullName session
  if email = "" then
    ({ received := some true, processed := some false, error := some ("missing_email") }, [])
  else
    v1Forward kit tagId email fullName

/-- Embedding of the tag-variant webhook handler (stripe-webhook.js lines
48-142).  `verifyResult` is the outcome `stripe.webhooks.constructEvent`
would produce on this request; it is only consulted after the method,
configuration and signature-header gates. -/
def webhookHandlerV1 (env : WebhookEnv) (event : WebhookEvent)
    (verifyResult : Except String StripeEvent) (kit : KitOracle) : WebhookOutcome :=
  if event.httpMethod ≠ "POST" then
    { resp := response 405 { error := some ("Method not allowed") },
      kitCalls := [], verifyAttempted := false }
  else
    let missing :=
      (if jsTruthy env.stripeKey then [] else ["STRIPE_SECRET_KEY"]) ++
      (if jsTruthy env.webhookSecret then [] else ["STRIPE_WEBHOOK_SECRET"]) ++
      (if jsTruthy env.kitApiKey then [] else ["KIT_API_KEY"]) ++
      (if jsTruthy env.kitTagId then [] else ["KIT_TAG_ID"])
    if missing ≠ [] then
      { resp := response 500
          { error := some ("Missing webhook/KIT configuration"), missing := some missing },
        kitCalls := [], verifyAttempted := false }
    else
      let signature := getHeader event.headers ("stripe-signature")
      if !(jsTruthy signature) then
        { resp := response 400 { error := some ("Missing Stripe signature") },
          kitCalls := [], verifyAttempted := false }
      else
        match verifyResult with
        | Except.error msg =>
          { resp := response 400
              { error := some ("Webhook signature verification failed: " ++ msg) },
            kitCalls := [], verifyAttempted := true }
        | Except.ok stripeEvent =>
          if stripeEvent.type ≠ "checkout.session.completed" then
            { resp := response 200
                { received := some true, ignored := some true, type := some stripeEvent.type },
              kitCalls := [], verifyAttempted := true }
          else
            let r := v1Process kit (env.kitTagId.getD "") stripeEvent.object
            { resp := response 200 r.1, kitCalls := r.2, verifyAttempted := true }

/-- The `res.ok` predicate of `fetch`: status in the 200-299 range. -/
def fetchOk (status : Nat) : Bool :=
  200 ≤ status && status ≤ 299

/-- Embedding of `kitRequest` (sequence variant, stripe-webhook.js lines
164-186): a fetch whose non-ok responses are turned into thrown errors;
the parsed JSON result is never consulted by the handler, so the raw
response is returned. -/
def kitRequest (kit : KitOracle) (c : KitCall) : Except String KitResult :=
  match kit c with
  | Except.error e => Except.error e
  | Except.ok r =>
    if fetchOk r.status then Except.ok r
    else Except.error
      ("Kit API error (" ++ toString r.status ++ ") on " ++ c.path ++ ": " ++ r.raw)

/-- The upsert call issued by the sequence variant (lines 244-248):
`fields` is the empty object unless an objective was found. -/
def v2UpsertCall (email firstName objective : String) : KitCall :=
  { path := "/subscribers", email_address := email, first_name := some firstName,
    fields := some (if objective = "" then [] else [("objective", objective)]) }

/-- The sequence-enrollment call (lines 252-254). -/
def v2SeqCall (seqId email : String) : KitCall :=
  { path := "/sequences/" ++ seqId ++ "/subscribers", email_address := email }

/-- The tag call of the sequence variant (lines 259-261). -/
def v2TagCall (tagId email : String) : KitCall :=
  { path := "/tags/" ++ tagId ++ "/subscribers", email_address := email }

/-- Final (optional) tag step of the sequence variant (lines 258-263). -/
def v2TagStep (kit : KitOracle) (tagId : Option String) (email : String)
    (callsSoFar : List KitCall) : RespBody × List KitCall :=
  if jsTruthy tagId then
    let tg := v2TagCall (tagId.getD "") email
    match kitRequest kit tg with
    | Except.error _ => ({ received := some true, processed := some false }, callsSoFar ++ [tg])
    | Except.ok _ => ({ received := some true, processed := some true }, callsSoFar ++ [tg])
  else
    ({ received := some true, processed := some true }, callsSoFar)

/-- Processing of a verified `checkout.session.completed` event in the
sequence variant (the try block, stripe-webhook.js lines 229-270): a
missing email and any non-ok Kit response are thrown and caught at line
266, acknowledged as `200 processed:false`. -/
def v2Process (kit : KitOracle) (seqId tagId : Option String)
    (session : CheckoutSessionObj) : RespBody × List KitCall :=
  let email := sessionEmail session
  let firstName := jsOrChain [session.metadata.bind (·.first_name)]
  let objective := jsOrChain [session.metadata.bind (·.objective)]
  if email = "" then
    ({ received := some true, processed := some false }, [])
  else
    let up := v2UpsertCall email firstName objective
    match kitRequest kit up with
    | Except.error _ => ({ received := some true, processed := some false }, [up])
    | Except.ok _ =>
      if jsTruthy seqId then
        let sq := v2SeqCall (seqId.getD "") email
        match kitRequest kit sq with
        | Except.error _ => ({ received := some true, processed := some false }, [up, sq])
        | Except.ok _ => v2TagStep kit tagId email [up, sq]
      else
        v2TagStep kit tagId email [up]

/-- Embedding of the sequence-variant webhook handler (stripe-webhook.js
lines 188-271). -/
def webhookHandlerV2 (env : WebhookEnv) (event : WebhookEvent)
    (verifyResult : Except String StripeEvent) (kit : KitOracle) : WebhookOutcome :=
  if event.httpMethod ≠ "POST" then
    { resp := response 405 { error := some ("Method not allowed") },
      kitCalls := [], verifyAttempted := false }
  else if !(jsTruthy env.stripeKey) || !(jsTruthy env.webhookSecret) ||
      !(jsTruthy env.kitApiKey) ||
      (!(jsTruthy env.kitSequenceId) && !(jsTruthy env.kitTagId)) then
    { resp := response 500 { error := some ("Missing webhook/KIT configuration") },
      kitCalls := [], verifyAttempted := false }
  else
    let signature := getHeader event.headers ("stripe-signature")
    if !(jsTruthy signature) then
      { resp := response 400 { error := some ("Missing Stripe signature") },
        kitCalls := [], verifyAttempted := false }
    else
      match verifyResult with
      | Except.error msg =>
        { resp := response 400
            { error := some ("Webhook signature verification failed: " ++ msg) },
          kitCalls := [], verifyAttempted := true }
      | Except.ok stripeEvent =>
        if stripeEvent.type ≠ "checkout.session.completed" then
          { resp := response 200
              { received := some true, ignored := some true, type := some stripeEvent.type },
            kitCalls := [], verifyAttempted := true }
        else
          let r := v2Process kit env.kitSequenceId env.kitTagId stripeEvent.object
          { resp := response 200 r.1, kitCalls := r.2, verifyAttempted := true }

/-- Environment variables read by the Session Initiator. -/
structure CheckoutEnv where
  stripeKey : Option String := none
  priceId : Option String := none
  siteUrl : Option String := none
deriving Repr, DecidableEq

/-- Request-body payload of the Session Initiator, after JSON parsing;
each alias field is a string or absent. -/
structure CheckoutPayload where
  email : Option String := none
  full_name : Option String := none
  fullName : Option String := none
  first_name : Option String := none
  firstName : Option String := none
deriving Repr, DecidableEq

/-- The inbound event of the Session Initiator.  `body` is `none` when the
request body is absent (JSON.parse then sees the literal for the empty
object and yields the empty payload); `some (Except.error m)` models a
present body on which JSON.parse throws with message `m`; `some
(Except.ok p)` a body parsing to `p`. -/
structure CheckoutEvent where
  httpMethod : String
  body : Option (Except String CheckoutPayload) := none

/-- Arguments of the single `stripe.checkout.sessions.create` call
(create-checkout-session.js lines 44-61), flattened. -/
structure SessionParams where
  mode : String
  price : String
  quantity : Nat
  customer_email : String
  success_url : String
  cancel_url : String
  meta_full_name : String
  meta_source : String
  pi_full_name : String
  pi_source : String
  pi_kit_sync_completed : String
deriving Repr, DecidableEq

/-- Outcome of the session-creation round trip: a created session
`(url, id)` or a rejection whose message feeds the catch block. -/
abbrev StripeOracle : Type := SessionParams → Except String (String × String)

/-- Response body of the Session Initiator. -/
structure CheckoutRespBody where
  ok : Option Bool := none
  error : Option String := none
  url : Option String := none
  id : Option String := none
deriving Repr, DecidableEq

/-- A Session Initiator HTTP response (the constant CORS headers of the
`json` helper are elided). -/
structure CheckoutResponse where
  statusCode : Nat
  body : CheckoutRespBody
deriving Repr, DecidableEq

/-- Observable outcome of one Session Initiator invocation. -/
structure CheckoutOutcome where
  resp : CheckoutResponse
  sessionCalls : List SessionParams
deriving Repr, DecidableEq

/-- Embedding of `(siteUrl).replace` with the anchored slash pattern
(create-checkout-session.js line 28): strips exactly one trailing slash. -/
def stripTrailingSlash (s : String) : String :=
  if s.endsWith ("/") then s.dropRight 1 else s

/-- The normalized email (line 35): first truthy of the email field and
the empty string, trimmed then lower-cased. -/
def checkoutEmail (p : CheckoutPayload) : String :=
  jsToLower (jsTrim (jsOrChain [p.email]))

/-- The customer name (line 36): first truthy alias among full_name,
fullName, first_name, firstName, then trimmed. -/
def checkoutFullName (p : CheckoutPayload) : String :=
  jsTrim (jsOrChain [p.full_name, p.fullName, p.first_name, p.firstName])

/-- Core of the Session Initiator after method gating, configuration
checks and body parsing (create-checkout-session.js lines 35-63). -/
def checkoutCore (env : CheckoutEnv) (payload : CheckoutPayload)
    (stripe : StripeOracle) : CheckoutOutcome :=
  let siteUrl := stripTrailingSlash
    (jsOrChain [env.siteUrl, some ("https://nostosprogram.com")])
  let email := checkoutEmail payload
  let fullName := checkoutFullName payload
  if email = "" || !(emailShapeTest email) then
    { resp := { statusCode := 400, body := { error := some ("Email invalide") } },
      sessionCalls := [] }
  else
    let params : SessionParams :=
      { mode := "payment", price := env.priceId.getD "", quantity := 1,
        customer_email := email,
        success_url := siteUrl ++ "/merci?session_id=\x7bCHECKOUT_SESSION_ID\x7d",
        cancel_url := siteUrl ++ "/annulation",
        meta_full_name := fullName, meta_source := "nostosprogram.com",
        pi_full_name := fullName, pi_source := "nostosprogram.com",
        pi_kit_sync_completed := "false" }
    match stripe params with
    | Except.error msg =>
      let m := if msg = "" then ("Unable to create checkout session" : String) else msg
      { resp := { statusCode := 500, body := { error := some m } },
        sessionCalls := [params] }
    | Except.ok res =>
      { resp := { statusCode := 200, body := { url := some res.1, id := some res.2 } },
        sessionCalls := [params] }

/-- Embedding of the Session Initiator handler
(create-checkout-session.js lines 16-67). -/
def checkoutHandler (env : CheckoutEnv) (event : CheckoutEvent)
    (stripe : StripeOracle) : CheckoutOutcome :=
  if event.httpMethod = "OPTIONS" then
    { resp := { statusCode := 200, body := { ok := some true } }, sessionCalls := [] }
  else if event.httpMethod ≠ "POST" then
    { resp := { statusCode := 405, body := { error := some ("Method not allowed") } },
      sessionCalls := [] }
  else if !(jsTruthy env.stripeKey) || !(jsTruthy env.priceId) then
    { resp := { statusCode := 500, body := { error := some ("Missing Stripe configuration") } },
      sessionCalls := [] }
  else
    match event.body with
    | some (Except.error msg) =>
      let m := if msg = "" then ("Unable to create checkout session" : String) else msg
      { resp := { statusCode := 500, body := { error := some m } }, sessionCalls := [] }
    | none => checkoutCore env {} stripe
    | some (Except.ok p) => checkoutCore env p stripe

/-- Modelled from the spec: the idempotency variant of the Payment-Event
Receiver (spec section 4.2, steps 7 and 10) is not among the files under
src/ — the Session Initiator writes the `kit_sync_completed=false` flag
onto the payment intent (create-checkout-session.js lines 54-60), but
neither webhook variant in src/ reads it.  Following the spec: the handler
fetches the payment intent, and if its `kit_sync_completed` metadata is
already the string true it short-circuits with an idempotent
acknowledgement and performs no further calls; otherwise it forwards as in
the tag variant and, only after a successful forward, writes the flag back
as true.  `flag` is the metadata value before the invocation; the second
component of the result is its value afterwards. -/
def idemInvoke (kit : KitOracle) (tagId email fullName flag : String) :
    (RespBody × List KitCall) × String :=
  if flag = "true" then
    (({ received := some true, processed := some false, idempotent := some true }, []), flag)
  else
    let r := v1Forward kit tagId email fullName
    if r.1.processed = some true then (r, "true") else (r, flag)

/-- Modelled from the spec: repeated deliveries of the same completed
session to the idempotency-variant handler, threading the payment-intent
metadata flag from one invocation to the next; returns the per-invocation
observations, oldest first. -/
def idemTrace (kit : KitOracle) (tagId email fullName : String) :
    Nat → String → List (RespBody × List KitCall)
  | 0, _ => []
  | Nat.succ n, flag =>
    let r := idemInvoke kit tagId email fullName flag
    r.1 :: idemTrace kit tagId email fullName n r.2

/-- Number of invocations in a replay trace that completed a forward
(answered `processed:true`). -/
def idemForwardCount (t : List (RespBody × List KitCall)) : Nat :=
  t.countP (fun r => r.1.processed = some true)

/-- The configuration the tag variant requires (stripe-webhook.js lines
53-67): all four of its environment variables truthy. -/
def v1ConfigOk (env : WebhookEnv) : Bool :=
  jsTruthy env.stripeKey && jsTruthy env.webhookSecret &&
  jsTruthy env.kitApiKey && jsTruthy env.kitTagId

/-- The configuration the sequence variant requires (stripe-webhook.js
line 199): the three keys plus at least one of sequence id and tag id. -/
def v2ConfigOk (env : WebhookEnv) : Bool :=
  jsTruthy env.stripeKey && jsTruthy env.webhookSecret &&
  jsTruthy env.kitApiKey &&
  (jsTruthy env.kitSequenceId || jsTruthy env.kitTagId)

/-- Ordering property of a Kit-call trace: every call that is not the
subscriber upsert is preceded by the upsert (path `/subscribers`). -/
def upsertFirstInTrace (t : List KitCall) : Prop :=
  ∀ i, ∀ hi : i < t.length, (t.get ⟨i, hi⟩).path ≠ "/subscribers" →
    ∃ j, ∃ hj : j < t.length, j < i ∧ (t.get ⟨j, hj⟩).path = "/subscribers"

/-- Name selection as claim C8 words it (a second definition written from
the claim, to be compared with `checkoutFullName` from the source): the
first alias whose value is non-empty once trimmed, returned trimmed, so
that a whitespace-only earlier alias does not mask a later alias. -/
def claimedC8Name : List (Option String) → String
  | [] => ""
  | a :: rest =>
    match a with
    | some s => if jsTrim s = "" then claimedC8Name rest else jsTrim s
    | none => claimedC8Name rest

lemma stripeSig_toLower : jsToLower ("stripe-signature") = "stripe-signature" := by
  decide

lemma getHeader_none_of_no_match (hs : List (String × String))
    (h : ∀ kv ∈ hs, jsToLower kv.1 ≠ "stripe-signature") :
    getHeader (some hs) ("stripe-signature") = none := by
  have h1 : hs.find? (fun kv => kv.1 = ("stripe-signature" : String)) = none := by
    rw [List.find?_eq_none]
    intro kv hkv
    simp only [decide_eq_true_eq]
    intro he
    exact h kv hkv (by rw [he, stripeSig_toLower])
  have h2 : hs.find? (fun kv => jsToLower kv.1 = jsToLower ("stripe-signature")) = none := by
    rw [List.find?_eq_none]
    intro kv hkv
    simp only [decide_eq_true_eq]
    intro he
    exact h kv hkv (by rw [stripeSig_toLower] at he; exact he)
  simp only [getHeader, h1, h2, Option.map_none', jsTruthy]
  simp

lemma jsToLower_sig_ne_empty {k : String} (h : jsToLower k = "stripe-signature") : k ≠ "" := by
  intro hk
  rw [hk] at h
  exact absurd h (by decide)

lemma getHeader_singleton {k : String} (v : String)
    (h : jsToLower k = "stripe-signature") :
    getHeader (some [(k, v)]) ("stripe-signature") = some v := by
  by_cases hk : k = "stripe-signature"
  · subst hk
    by_cases hv : v = ""
    · subst hv
      simp [getHeader, jsTruthy, stripeSig_toLower, List.find?]
    · simp [getHeader, jsTruthy, hv, List.find?]
  · have hne : k ≠ "" := jsToLower_sig_ne_empty h
    simp [getHeader, jsTruthy, hk, hne, h, stripeSig_toLower, List.find?]

lemma webhookV1_missing_sig (env : WebhookEnv) (hs : Headers) (b64 : Bool)
    (body : Option String) (vr : Except String StripeEvent) (kit : KitOracle)
    (hcfg : v1ConfigOk env = true)
    (hsig : jsTruthy (getHeader hs ("stripe-signature")) = false) :
    webhookHandlerV1 env
      { httpMethod := "POST", headers := hs, isBase64Encoded := b64, body := body } vr kit =
      { resp := response 400 { error := some ("Missing Stripe signature") },
        kitCalls := [], verifyAttempted := false } := by
  simp only [v1ConfigOk, Bool.and_eq_true] at hcfg
  obtain ⟨⟨⟨h1, h2⟩, h3⟩, h4⟩ := hcfg
  simp [webhookHandlerV1, h1, h2, h3, h4, hsig]

lemma webhookV2_missing_sig (env : WebhookEnv) (hs : Headers) (b64 : Bool)
    (body : Option String) (vr : Except String StripeEvent) (kit : KitOracle)
    (hcfg : v2ConfigOk env = true)
    (hsig : jsTruthy (getHeader hs ("stripe-signature")) = false) :
    webhookHandlerV2 env
      { httpMethod := "POST", headers := hs, isBase64Encoded := b64, body := body } vr kit =
      { resp := response 400 { error := some ("Missing Stripe signature") },
        kitCalls := [], verifyAttempted := false } := by
  simp only [v2ConfigOk, Bool.and_eq_true, Bool.or_eq_true] at hcfg
  obtain ⟨⟨⟨h1, h2⟩, h3⟩, h4⟩ := hcfg
  rcases h4 with h4 | h4 <;>
    simp [webhookHandlerV2, h1, h2, h3, h4, hsig]

/-- Claim C7: for every headers map with no key case-insensitively equal
to stripe-signature, both webhook variants (under complete configuration)
answer 400 Missing Stripe signature, attempt no verification and issue no
Kit call; and a header carried under any casing with a non-empty value is
located by `getHeader`. -/
theorem C7_signature_header_lookup :
    (∀ (env : WebhookEnv) (hs : List (String × String)) (b64 : Bool)
      (body : Option String) (vr : Except String StripeEvent) (kit : KitOracle),
      v1ConfigOk env = true → v2ConfigOk env = true →
      (∀ kv ∈ hs, jsToLower kv.1 ≠ "stripe-signature") →
      webhookHandlerV1 env
        { httpMethod := "POST", headers := some hs, isBase64Encoded := b64, body := body } vr kit =
        { resp := response 400 { error := some ("Missing Stripe signature") },
          kitCalls := [], verifyAttempted := false } ∧
      webhookHandlerV2 env
        { httpMethod := "POST", headers := some hs, isBase64Encoded := b64, body := body } vr kit =
        { resp := response 400 { error := some ("Missing Stripe signature") },
          kitCalls := [], verifyAttempted := false }) ∧
    (∀ (k v : String), jsToLower k = "stripe-signature" → v ≠ "" →
      getHeader (some [(k, v)]) ("stripe-signature") = some v) := by
  constructor
  · intro env hs b64 body vr kit hcfg1 hcfg2 hnone
    have hsig : jsTruthy (getHeader (some hs) ("stripe-signature")) = false := by
      rw [getHeader_none_of_no_match hs hnone]
      rfl
    exact ⟨webhookV1_missing_sig env (some hs) b64 body vr kit hcfg1 hsig,
           webhookV2_missing_sig env (some hs) b64 body vr kit hcfg2 hsig⟩
  · intro k v h _
    exact getHeader_singleton v h

/-- Witness for C7 at concrete inputs: a header map lacking the signature
header yields the 400 outcome on the tag variant, and a differently cased
signature header is located. -/
theorem C7_signature_header_lookup_witness :
    webhookHandlerV1
      { stripeKey := some ("sk"), webhookSecret := some ("wh"),
        kitApiKey := some ("kk"), kitTagId := some ("tag1"), kitSequenceId := some ("sq1") }
      { httpMethod := "POST", headers := some [("content-type", "application/json")],
        isBase64Encoded := false, body := none }
      (Except.error "no event") (fun _ => Except.error "down") =
      { resp := response 400 { error := some ("Missing Stripe signature") },
        kitCalls := [], verifyAttempted := false } ∧
    getHeader (some [("Stripe-Signature", "t=1,v1=abc")]) ("stripe-signature") =
      some ("t=1,v1=abc") := by
  exact ⟨(C7_signature_header_lookup.1 _ _ false none _ _ (by decide) (by decide)
            (by decide)).1,
         C7_signature_header_lookup.2 "Stripe-Signature" "t=1,v1=abc" (by decide) (by decide)⟩

/-- Claim C9 counterexample: a stripe-signature header present with the
empty value makes `getHeader` return the empty string, not the null the
claim asserts. -/
theorem C9_counterexample_empty_header_value :
    getHeader (some [("Stripe-Signature", "")]) ("stripe-signature") = some "" ∧
    (some "" : Option String) ≠ none := by
  constructor
  · decide
  · decide

/-- Claim C9 as amended: with the signature header present under any
casing but carrying the empty string, `getHeader` returns the empty
string (not null), and the falsiness check then makes both variants
answer 400 Missing Stripe signature without attempting verification. -/
theorem C9_empty_signature_like_missing :
    ∀ (k : String) (env : WebhookEnv) (b64 : Bool) (body : Option String)
      (vr : Except String StripeEvent) (kit : KitOracle),
      jsToLower k = "stripe-signature" →
      v1ConfigOk env = true → v2ConfigOk env = true →
      getHeader (some [(k, "")]) ("stripe-signature") = some "" ∧
      webhookHandlerV1 env
        { httpMethod := "POST", headers := some [(k, "")], isBase64Encoded := b64, body := body } vr kit =
        { resp := response 400 { error := some ("Missing Stripe signature") },
          kitCalls := [], verifyAttempted := false } ∧
      webhookHandlerV2 env
        { httpMethod := "POST", headers := some [(k, "")], isBase64Encoded := b64, body := body } vr kit =
        { resp := response 400 { error := some ("Missing Stripe signature") },
          kitCalls := [], verifyAttempted := false } := by
  intro k env b64 body vr kit hk hcfg1 hcfg2
  have hget : getHeader (some [(k, "")]) ("stripe-signature") = some "" :=
    getHeader_singleton "" hk
  have hsig : jsTruthy (getHeader (some [(k, "")]) ("stripe-signature")) = false := by
    rw [hget]; rfl
  exact ⟨hget, webhookV1_missing_sig env _ b64 body vr kit hcfg1 hsig,
         webhookV2_missing_sig env _ b64 body vr kit hcfg2 hsig⟩

/-- Witness for the amended C9 at a concrete upper-cased header. -/
theorem C9_empty_signature_like_missing_witness :
    getHeader (some [("STRIPE-SIGNATURE", "")]) ("stripe-signature") = some "" ∧
    webhookHandlerV1
      { stripeKey := some ("sk"), webhookSecret := some ("wh"),
        kitApiKey := some ("kk"), kitTagId := some ("tag1"), kitSequenceId := none }
      { httpMethod := "POST", headers := some [("STRIPE-SIGNATURE", "")],
        isBase64Encoded := false, body := none }
      (Except.error "no event") (fun _ => Except.error "down") =
      { resp := response 400 { error := some ("Missing Stripe signature") },
        kitCalls := [], verifyAttempted := false } := by
  have h := C9_empty_signature_like_missing "STRIPE-SIGNATURE"
    { stripeKey := some ("sk"), webhookSecret := some ("wh"),
      kitApiKey := some ("kk"), kitTagId := some ("tag1"), kitSequenceId := none }
    false none (Except.error "no event") (fun _ => Except.error "down")
    (by decide) (by decide) (by decide)
  exact ⟨h.1, h.2.1⟩

lemma v1Process_received (kit : KitOracle) (tagId : String) (session : CheckoutSessionObj) :
    (v1Process kit tagId session).1.received = some true := by
  by_cases he : sessionEmail session = ""
  · simp [v1Process, he]
  · rcases hk : kit (v1UpsertCall (sessionEmail session) (v1FullName session)) with e | r
    · simp [v1Process, v1Forward, he, hk]
    · by_cases habort : (!v1IsSuccess r && !isSubscriberAlreadyExists r.raw) = true
      · simp [v1Process, v1Forward, he, hk, habort]
      · rcases ht : kit (v1TagCall tagId (sessionEmail session)) with e2 | t
        · simp [v1Process, v1Forward, he, hk, habort, ht]
        · by_cases hts : (!v1IsSuccess t) = true <;>
            simp [v1Process, v1Forward, he, hk, habort, ht, hts]

lemma v2TagStep_received (kit : KitOracle) (tagId : Option String) (email : String)
    (callsSoFar : List KitCall) :
    (v2TagStep kit tagId email callsSoFar).1.received = some true := by
  by_cases h : jsTruthy tagId = true
  · rcases hr : kitRequest kit (v2TagCall (tagId.getD "") email) with e | r <;>
      simp [v2TagStep, h, hr]
  · simp [v2TagStep, h]

lemma v2Process_received (kit : KitOracle) (seqId tagId : Option String)
    (session : CheckoutSessionObj) :
    (v2Process kit seqId tagId session).1.received = some true := by
  by_cases he : sessionEmail session = ""
  · simp [v2Process, he]
  · rcases hk : kitRequest kit (v2UpsertCall (sessionEmail session)
        (jsOrChain [session.metadata.bind (·.first_name)])
        (jsOrChain [session.metadata.bind (·.objective)])) with e | r
    · simp [v2Process, he, hk]
    · by_cases hs : jsTruthy seqId = true
      · rcases hq : kitRequest kit (v2SeqCall (seqId.getD "") (sessionEmail session)) with e2 | q
        · simp [v2Process, he, hk, hs, hq]
        · simp [v2Process, he, hk, hs, hq, v2TagStep_received]
      · simp [v2Process, he, hk, hs, v2TagStep_received]

lemma webhookV1_cases (env : WebhookEnv) (ev : WebhookEvent) (sev : StripeEvent)
    (kit : KitOracle) :
    (webhookHandlerV1 env ev (Except.ok sev) kit).verifyAttempted = false ∨
    ((webhookHandlerV1 env ev (Except.ok sev) kit).resp.statusCode = 200 ∧
     (webhookHandlerV1 env ev (Except.ok sev) kit).resp.body.received = some true) := by
  by_cases hm : ev.httpMethod = "POST"
  · by_cases h1 : jsTruthy env.stripeKey = true <;>
    by_cases h2 : jsTruthy env.webhookSecret = true <;>
    by_cases h3 : jsTruthy env.kitApiKey = true <;>
    by_cases h4 : jsTruthy env.kitTagId = true <;>
    first
      | (left; simp [webhookHandlerV1, hm, h1, h2, h3, h4]; done)
      | (by_cases hsig : jsTruthy (getHeader ev.headers ("stripe-signature")) = true
         · by_cases htype : sev.type = "checkout.session.completed"
           · right
             simp [webhookHandlerV1, hm, h1, h2, h3, h4, hsig, htype, response,
               v1Process_received]
           · right
             simp [webhookHandlerV1, hm, h1, h2, h3, h4, hsig, htype, response]
         · left
           simp [webhookHandlerV1, hm, h1, h2, h3, h4, hsig])
  · left
    simp [webhookHandlerV1, hm]

lemma webhookV2_cases (env : WebhookEnv) (ev : WebhookEvent) (sev : StripeEvent)
    (kit : KitOracle) :
    (webhookHandlerV2 env ev (Except.ok sev) kit).verifyAttempted = false ∨
    ((webhookHandlerV2 env ev (Except.ok sev) kit).resp.statusCode = 200 ∧
     (webhookHandlerV2 env ev (Except.ok sev) kit).resp.body.received = some true) := by
  by_cases hm : ev.httpMethod = "POST"
  · by_cases hcfg : (!(jsTruthy env.stripeKey) || !(jsTruthy env.webhookSecret) ||
        !(jsTruthy env.kitApiKey) ||
        (!(jsTruthy env.kitSequenceId) && !(jsTruthy env.kitTagId))) = true
    · left
      simp only [webhookHandlerV2, hm]
      simp [hcfg]
    · by_cases hsig : jsTruthy (getHeader ev.headers ("stripe-signature")) = true
      · by_cases htype : sev.type = "checkout.session.completed"
        · right
          simp only [webhookHandlerV2, hm]
          simp [hcfg, hsig, htype, response, v2Process_received]
        · right
          simp only [webhookHandlerV2, hm]
          simp [hcfg, hsig, htype, response]
      · left
        simp only [webhookHandlerV2, hm]
        simp [hcfg, hsig]
  · left
    simp [webhookHandlerV2, hm]

/-- Claim C2: on any request whose execution reaches and passes signature
verification, both webhook variants answer status 200 with
`received:true`, whatever the event type, the session contents, or the
Kit API behaviour (including thrown errors). -/
theorem C2_always_200_after_verification :
    ∀ (env : WebhookEnv) (ev : WebhookEvent) (sev : StripeEvent) (kit : KitOracle),
      ((webhookHandlerV1 env ev (Except.ok sev) kit).verifyAttempted = true →
        (webhookHandlerV1 env ev (Except.ok sev) kit).resp.statusCode = 200 ∧
        (webhookHandlerV1 env ev (Except.ok sev) kit).resp.body.received = some true) ∧
      ((webhookHandlerV2 env ev (Except.ok sev) kit).verifyAttempted = true →
        (webhookHandlerV2 env ev (Except.ok sev) kit).resp.statusCode = 200 ∧
        (webhookHandlerV2 env ev (Except.ok sev) kit).resp.body.received = some true) := by
  intro env ev sev kit
  constructor
  · intro h
    rcases webhookV1_cases env ev sev kit with hf | hok
    · rw [h] at hf
      exact absurd hf (by decide)
    · exact hok
  · intro h
    rcases webhookV2_cases env ev sev kit with hf | hok
    · rw [h] at hf
      exact absurd hf (by decide)
    · exact hok

lemma webhookV1_500_iff (env : WebhookEnv) (ev : WebhookEvent)
    (vr : Except String StripeEvent) (kit : KitOracle) (hm : ev.httpMethod = "POST") :
    ((webhookHandlerV1 env ev vr kit).resp.statusCode = 500 ↔ v1ConfigOk env = false) ∧
    ((webhookHandlerV1 env ev vr kit).resp.statusCode = 500 →
      (webhookHandlerV1 env ev vr kit).verifyAttempted = false ∧
      (webhookHandlerV1 env ev vr kit).kitCalls = []) := by
  cases h1 : jsTruthy env.stripeKey <;>
  cases h2 : jsTruthy env.webhookSecret <;>
  cases h3 : jsTruthy env.kitApiKey <;>
  cases h4 : jsTruthy env.kitTagId <;>
    try (simp [webhookHandlerV1, hm, h1, h2, h3, h4, v1ConfigOk, response]; done)
  cases hsig : jsTruthy (getHeader ev.headers ("stripe-signature"))
  · simp [webhookHandlerV1, hm, h1, h2, h3, h4, v1ConfigOk, hsig, response]
  · rcases vr with msg | sev
    · simp [webhookHandlerV1, hm, h1, h2, h3, h4, v1ConfigOk, hsig, response]
    · by_cases htype : sev.type = "checkout.session.completed" <;>
        simp [webhookHandlerV1, hm, h1, h2, h3, h4, v1ConfigOk, hsig, htype, response]

lemma v2_config_cond (env : WebhookEnv) :
    (!(jsTruthy env.stripeKey) || !(jsTruthy env.webhookSecret) ||
      !(jsTruthy env.kitApiKey) ||
      (!(jsTruthy env.kitSequenceId) && !(jsTruthy env.kitTagId))) = !(v2ConfigOk env) := by
  unfold v2ConfigOk
  cases jsTruthy env.stripeKey <;> cases jsTruthy env.webhookSecret <;>
    cases jsTruthy env.kitApiKey <;> cases jsTruthy env.kitSequenceId <;>
    cases jsTruthy env.kitTagId <;> rfl

lemma webhookV2_500_iff (env : WebhookEnv) (ev : WebhookEvent)
    (vr : Except String StripeEvent) (kit : KitOracle) (hm : ev.httpMethod = "POST") :
    ((webhookHandlerV2 env ev vr kit).resp.statusCode = 500 ↔ v2ConfigOk env = false) ∧
    ((webhookHandlerV2 env ev vr kit).resp.statusCode = 500 →
      (webhookHandlerV2 env ev vr kit).verifyAttempted = false ∧
      (webhookHandlerV2 env ev vr kit).kitCalls = []) := by
  have hc := v2_config_cond env
  cases hcfg : v2ConfigOk env
  · rw [hcfg] at hc
    simp only [webhookHandlerV2, hm]
    simp [hc, response]
  · rw [hcfg] at hc
    simp only [webhookHandlerV2, hm]
    cases hsig : jsTruthy (getHeader ev.headers ("stripe-signature"))
    · simp [hc, hsig, response]
    · rcases vr with msg | sev
      · simp [hc, hsig, response]
      · by_cases htype : sev.type = "checkout.session.completed" <;>
          simp [hc, hsig, htype, response]

/-- Claim C5 counterexample: under the tag variant, a configuration with
the three keys and a sequence identifier but no tag identifier is
rejected with 500, although the claim says such a configuration is
accepted. -/
theorem C5_counterexample_sequence_only_rejected :
    (webhookHandlerV1
      { stripeKey := some ("sk"), webhookSecret := some ("wh"),
        kitApiKey := some ("kk"), kitTagId := none, kitSequenceId := some ("sq1") }
      { httpMethod := "POST", headers := some [("stripe-signature", "t=1")],
        isBase64Encoded := false, body := none }
      (Except.error "unused") (fun _ => Except.error "unused")).resp.statusCode = 500 ∧
    jsTruthy (some ("sk")) = true ∧ jsTruthy (some ("wh")) = true ∧
    jsTruthy (some ("kk")) = true ∧ jsTruthy (some ("sq1")) = true := by
  refine ⟨?_, by decide, by decide, by decide, by decide⟩
  decide

/-- Claim C5 as amended: on POST requests the tag variant answers 500
(before verification, making no Kit call) exactly when one of its four
required values (the three keys and the tag id) is missing, while the
sequence variant answers 500 exactly when one of the three keys is
missing or both sequence id and tag id are; only the sequence variant
accepts a sequence-only configuration. -/
theorem C5_config_gate_amended :
    ∀ (env : WebhookEnv) (ev : WebhookEvent) (vr : Except String StripeEvent)
      (kit : KitOracle),
      ev.httpMethod = "POST" →
      (((webhookHandlerV1 env ev vr kit).resp.statusCode = 500 ↔ v1ConfigOk env = false) ∧
       ((webhookHandlerV1 env ev vr kit).resp.statusCode = 500 →
         (webhookHandlerV1 env ev vr kit).verifyAttempted = false ∧
         (webhookHandlerV1 env ev vr kit).kitCalls = []) ∧
       ((webhookHandlerV2 env ev vr kit).resp.statusCode = 500 ↔ v2ConfigOk env = false) ∧
       ((webhookHandlerV2 env ev vr kit).resp.statusCode = 500 →
         (webhookHandlerV2 env ev vr kit).verifyAttempted = false ∧
         (webhookHandlerV2 env ev vr kit).kitCalls = [])) := by
  intro env ev vr kit hm
  obtain ⟨ha1, ha2⟩ := webhookV1_500_iff env ev vr kit hm
  obtain ⟨hb1, hb2⟩ := webhookV2_500_iff env ev vr kit hm
  exact ⟨ha1, ha2, hb1, hb2⟩

/-- Witness for the amended C5: concrete sequence-only configuration is a
500 for the tag variant and not a 500 for the sequence variant. -/
theorem C5_config_gate_amended_witness :
    ((webhookHandlerV1
      { stripeKey := some ("sk"), webhookSecret := some ("wh"),
        kitApiKey := some ("kk"), kitTagId := none, kitSequenceId := some ("sq1") }
      { httpMethod := "POST", headers := some [], isBase64Encoded := false, body := none }
      (Except.error "unused") (fun _ => Except.error "unused")).resp.statusCode = 500 ↔
      v1ConfigOk ({ stripeKey := some ("sk"), webhookSecret := some ("wh"),
                    kitApiKey := some ("kk"), kitTagId := none,
                    kitSequenceId := some ("sq1") }) = false) ∧
    ((webhookHandlerV2
      { stripeKey := some ("sk"), webhookSecret := some ("wh"),
        kitApiKey := some ("kk"), kitTagId := none, kitSequenceId := some ("sq1") }
      { httpMethod := "POST", headers := some [], isBase64Encoded := false, body := none }
      (Except.error "unused") (fun _ => Except.error "unused")).resp.statusCode = 500 ↔
      v2ConfigOk ({ stripeKey := some ("sk"), webhookSecret := some ("wh"),
                    kitApiKey := some ("kk"), kitTagId := none,
                    kitSequenceId := some ("sq1") }) = false) := by
  have h := C5_config_gate_amended
    { stripeKey := some ("sk"), webhookSecret := some ("wh"),
      kitApiKey := some ("kk"), kitTagId := none, kitSequenceId := some ("sq1") }
    { httpMethod := "POST", headers := some [], isBase64Encoded := false, body := none }
    (Except.error "unused") (fun _ => Except.error "unused") (by decide)
  exact ⟨h.1, h.2.2.1⟩

/-- Claim C6 counterexample: with complete Stripe configuration, a POST
whose body fails to parse as JSON (hence carries no email) is answered
500, not the 400 the claim asserts; no session-creation call is made. -/
theorem C6_counterexample_unparseable_body :
    (checkoutHandler { stripeKey := some ("sk"), priceId := some ("price_123"), siteUrl := none }
      { httpMethod := "POST", body := some (Except.error "Unexpected token o in JSON") }
      (fun _ => Except.error "unused")).resp.statusCode = 500 ∧
    ¬ ((checkoutHandler { stripeKey := some ("sk"), priceId := some ("price_123"), siteUrl := none }
      { httpMethod := "POST", body := some (Except.error "Unexpected token o in JSON") }
      (fun _ => Except.error "unused")).resp.statusCode = 400) ∧
    (checkoutHandler { stripeKey := some ("sk"), priceId := some ("price_123"), siteUrl := none }
      { httpMethod := "POST", body := some (Except.error "Unexpected token o in JSON") }
      (fun _ => Except.error "unused")).sessionCalls = [] := by
  refine ⟨by decide, by decide, by decide⟩

lemma checkoutCore_bad_email (env : CheckoutEnv) (p : CheckoutPayload)
    (stripe : StripeOracle)
    (hbad : checkoutEmail p = "" ∨ emailShapeTest (checkoutEmail p) = false) :
    checkoutCore env p stripe =
      { resp := { statusCode := 400, body := { error := some ("Email invalide") } },
        sessionCalls := [] } := by
  rcases hbad with h | h
  · simp [checkoutCore, h]
  · by_cases he : checkoutEmail p = ""
    · simp [checkoutCore, he]
    · simp [checkoutCore, he, h]

/-- Claim C6 as amended: when the Stripe configuration is present and the
POST body is absent or parses as JSON, an email that is empty, absent, or
failing the regex shape test draws a 400 Email invalide with no
session-creation call; and in every execution whatsoever, any
session-creation call that is issued carries a non-empty email that
passes the shape test. -/
theorem C6_invalid_email_rejected :
    (∀ (env : CheckoutEnv) (p : CheckoutPayload) (stripe : StripeOracle),
      jsTruthy env.stripeKey = true → jsTruthy env.priceId = true →
      (checkoutEmail p = "" ∨ emailShapeTest (checkoutEmail p) = false) →
      checkoutHandler env { httpMethod := "POST", body := some (Except.ok p) } stripe =
        { resp := { statusCode := 400, body := { error := some ("Email invalide") } },
          sessionCalls := [] } ∧
      checkoutHandler env { httpMethod := "POST", body := none } stripe =
        checkoutCore env {} stripe) ∧
    (∀ (env : CheckoutEnv) (ev : CheckoutEvent) (stripe : StripeOracle)
      (params : SessionParams),
      params ∈ (checkoutHandler env ev stripe).sessionCalls →
      params.customer_email ≠ "" ∧ emailShapeTest params.customer_email = true) := by
  constructor
  · intro env p stripe h1 h2 hbad
    constructor
    · simp [checkoutHandler, h1, h2]
      exact checkoutCore_bad_email env p stripe hbad
    · simp [checkoutHandler, h1, h2]
  · intro env ev stripe params hmem
    by_cases hm1 : ev.httpMethod = "OPTIONS"
    · simp [checkoutHandler, hm1] at hmem
    · by_cases hm2 : ev.httpMethod = "POST"
      · by_cases h1 : jsTruthy env.stripeKey = true
        · by_cases h2 : jsTruthy env.priceId = true
          · have hcore : ∀ q : CheckoutPayload,
                params ∈ (checkoutCore env q stripe).sessionCalls →
                params.customer_email ≠ "" ∧ emailShapeTest params.customer_email = true := by
              intro q hq
              by_cases he : checkoutEmail q = ""
              · simp [checkoutCore, he] at hq
              · by_cases hshape : emailShapeTest (checkoutEmail q) = true
                · rcases hst : stripe
                      { mode := "payment", price := env.priceId.getD "", quantity := 1,
                        customer_email := checkoutEmail q,
                        success_url := stripTrailingSlash
                            (jsOrChain [env.siteUrl, some ("https://nostosprogram.com")]) ++
                          "/merci?session_id=\x7bCHECKOUT_SESSION_ID\x7d",
                        cancel_url := stripTrailingSlash
                            (jsOrChain [env.siteUrl, some ("https://nostosprogram.com")]) ++
                          "/annulation",
                        meta_full_name := checkoutFullName q,
                        meta_source := "nostosprogram.com",
                        pi_full_name := checkoutFullName q,
                        pi_source := "nostosprogram.com",
                        pi_kit_sync_completed := "false" } with msg | res <;>
                  · simp [checkoutCore, he, hshape, hst] at hq
                    rw [hq]
                    exact ⟨he, hshape⟩
                · simp [checkoutCore, he, hshape] at hq
            rcases hb : ev.body with _ | ex
            · exact hcore {} (by simpa [checkoutHandler, hm1, hm2, h1, h2, hb] using hmem)
            · rcases ex with msg | q
              · simp [checkoutHandler, hm1, hm2, h1, h2, hb] at hmem
              · exact hcore q (by simpa [checkoutHandler, hm1, hm2, h1, h2, hb] using hmem)
          · simp [checkoutHandler, hm1, hm2, h1, h2] at hmem
        · simp [checkoutHandler, hm1, hm2, h1] at hmem
      · simp [checkoutHandler, hm1, hm2] at hmem

/-- Witness for the amended C6: a concrete malformed email draws the 400
and a session-creation call for a valid email satisfies the shape test. -/
theorem C6_invalid_email_rejected_witness :
    checkoutHandler { stripeKey := some ("sk"), priceId := some ("price_123"), siteUrl := none }
      { httpMethod := "POST", body := some (Except.ok { email := some ("not-an-email") }) }
      (fun _ => Except.error "unused") =
      { resp := { statusCode := 400, body := { error := some ("Email invalide") } },
        sessionCalls := [] } := by
  exact ((C6_invalid_email_rejected.1
    { stripeKey := some ("sk"), priceId := some ("price_123"), siteUrl := none }
    { email := some ("not-an-email") }
    (fun _ => Except.error "unused") (by decide) (by decide) (by decide)).1)

/-- Claim C8 counterexample: a whitespace-only full_name masks the
non-empty fullName alias — the session is created with the empty name,
while the claimed selection rule yields John. -/
theorem C8_counterexample_whitespace_masks :
    ((checkoutHandler
        { stripeKey := some ("sk"), priceId := some ("price_123"), siteUrl := none }
        { httpMethod := "POST",
          body := some (Except.ok
            { email := some ("a@b.co"), full_name := some (" "), fullName := some ("John") }) }
        (fun _ => Except.ok ("https://pay.example", "cs_1"))).sessionCalls.map
      (fun q => q.meta_full_name)) = [""] ∧
    claimedC8Name [some (" "), some ("John"), none, none] = "John" ∧
    ("" : String) ≠ "John" := by
  refine ⟨by decide, by decide, by decide⟩

/-- Claim C8 as amended: the name sent to the provider (in both the
session metadata and the payment-intent metadata) is the first truthy
alias value among full_name, fullName, first_name, firstName, trimmed
afterwards; consequently a whitespace-only earlier alias masks any later
alias and produces the empty name. -/
theorem C8_name_alias_selection :
    (∀ (env : CheckoutEnv) (p : CheckoutPayload) (stripe : StripeOracle),
      ((checkoutHandler env { httpMethod := "POST", body := some (Except.ok p) } stripe).sessionCalls.all
        (fun q =>
          q.meta_full_name == jsTrim (jsOrChain [p.full_name, p.fullName, p.first_name, p.firstName]) &&
          q.pi_full_name == jsTrim (jsOrChain [p.full_name, p.fullName, p.first_name, p.firstName]))) = true) ∧
    checkoutFullName { full_name := some (" "), fullName := some ("John") } = "" := by
  constructor
  · intro env p stripe
    by_cases h1 : jsTruthy env.stripeKey = true
    · by_cases h2 : jsTruthy env.priceId = true
      · by_cases he : checkoutEmail p = ""
        · simp [checkoutHandler, h1, h2, checkoutCore, he]
        · by_cases hshape : emailShapeTest (checkoutEmail p) = true
          · rcases hst : stripe
                { mode := "payment", price := env.priceId.getD "", quantity := 1,
                  customer_email := checkoutEmail p,
                  success_url := stripTrailingSlash
                      (jsOrChain [env.siteUrl, some ("https://nostosprogram.com")]) ++
                    "/merci?session_id=\x7bCHECKOUT_SESSION_ID\x7d",
                  cancel_url := stripTrailingSlash
                      (jsOrChain [env.siteUrl, some ("https://nostosprogram.com")]) ++
                    "/annulation",
                  meta_full_name := checkoutFullName p,
                  meta_source := "nostosprogram.com",
                  pi_full_name := checkoutFullName p,
                  pi_source := "nostosprogram.com",
                  pi_kit_sync_completed := "false" } with msg | res <;>
              (simp [checkoutHandler, h1, h2, checkoutCore, he, hshape, hst]
               simp [checkoutFullName])
          · simp [checkoutHandler, h1, h2, checkoutCore, he, hshape]
      · simp [checkoutHandler, h1, h2]
    · simp [checkoutHandler, h1]
  · decide

lemma webhookV1_completed (env : WebhookEnv) (ev : WebhookEvent) (sev : StripeEvent)
    (kit : KitOracle) (hm : ev.httpMethod = "POST") (hcfg : v1ConfigOk env = true)
    (hsig : jsTruthy (getHeader ev.headers ("stripe-signature")) = true)
    (htype : sev.type = "checkout.session.completed") :
    webhookHandlerV1 env ev (Except.ok sev) kit =
      { resp := response 200 (v1Process kit (env.kitTagId.getD "") sev.object).1,
        kitCalls := (v1Process kit (env.kitTagId.getD "") sev.object).2,
        verifyAttempted := true } := by
  simp only [v1ConfigOk, Bool.and_eq_true] at hcfg
  obtain ⟨⟨⟨h1, h2⟩, h3⟩, h4⟩ := hcfg
  simp [webhookHandlerV1, hm, h1, h2, h3, h4, hsig, htype]

lemma webhookV2_completed (env : WebhookEnv) (ev : WebhookEvent) (sev : StripeEvent)
    (kit : KitOracle) (hm : ev.httpMethod = "POST") (hcfg : v2ConfigOk env = true)
    (hsig : jsTruthy (getHeader ev.headers ("stripe-signature")) = true)
    (htype : sev.type = "checkout.session.completed") :
    webhookHandlerV2 env ev (Except.ok sev) kit =
      { resp := response 200 (v2Process kit env.kitSequenceId env.kitTagId sev.object).1,
        kitCalls := (v2Process kit env.kitSequenceId env.kitTagId sev.object).2,
        verifyAttempted := true } := by
  have hc := v2_config_cond env
  rw [hcfg] at hc
  simp only [webhookHandlerV2, hm]
  simp [hc, hsig, htype]

/-- Claim C4: when the tag-variant upsert comes back with a non-success
status, a body matching the already-exists phrases lets processing
continue to the tag call, while any other body aborts forwarding with
200 received:true, processed:false and no tag call. -/
theorem C4_already_exists_tolerance :
    ∀ (env : WebhookEnv) (ev : WebhookEvent) (sev : StripeEvent) (kit : KitOracle)
      (r : KitResult),
      ev.httpMethod = "POST" → v1ConfigOk env = true →
      jsTruthy (getHeader ev.headers ("stripe-signature")) = true →
      sev.type = "checkout.session.completed" →
      sessionEmail sev.object ≠ "" →
      kit (v1UpsertCall (sessionEmail sev.object) (v1FullName sev.object)) = Except.ok r →
      v1IsSuccess r = false →
      ((isSubscriberAlreadyExists r.raw = true →
        v1TagCall (env.kitTagId.getD "") (sessionEmail sev.object) ∈
          (webhookHandlerV1 env ev (Except.ok sev) kit).kitCalls) ∧
       (isSubscriberAlreadyExists r.raw = false →
        (webhookHandlerV1 env ev (Except.ok sev) kit).resp =
          response 200 { received := some true, processed := some false } ∧
        (webhookHandlerV1 env ev (Except.ok sev) kit).kitCalls =
          [v1UpsertCall (sessionEmail sev.object) (v1FullName sev.object)])) := by
  intro env ev sev kit r hm hcfg hsig htype he hk hfail
  rw [webhookV1_completed env ev sev kit hm hcfg hsig htype]
  constructor
  · intro hex
    rcases ht : kit (v1TagCall (env.kitTagId.getD "") (sessionEmail sev.object)) with e | t
    · simp [v1Process, he, v1Forward, hk, hfail, hex, ht]
    · by_cases hts : v1IsSuccess t = true <;>
        simp [v1Process, he, v1Forward, hk, hfail, hex, ht, hts]
  · intro hnex
    simp [v1Process, he, v1Forward, hk, hfail, hnex, response]

/-- Witness for C4 at concrete inputs: an already-exists 422 upsert
response is followed by the tag call. -/
theorem C4_already_exists_tolerance_witness :
    v1TagCall ("tag1") ("a@b.co") ∈
      (webhookHandlerV1
        { stripeKey := some ("sk"), webhookSecret := some ("wh"),
          kitApiKey := some ("kk"), kitTagId := some ("tag1"), kitSequenceId := none }
        { httpMethod := "POST", headers := some [("stripe-signature", "t=1")],
          isBase64Encoded := false, body := none }
        (Except.ok { type := "checkout.session.completed",
                     object := { customer_email := some ("a@b.co") } })
        (fun c => if c.path = "/subscribers"
          then Except.ok { status := 422, raw := "Email address already exists" }
          else Except.ok { status := 200, raw := "tagged" })).kitCalls := by
  exact (C4_already_exists_tolerance
    { stripeKey := some ("sk"), webhookSecret := some ("wh"),
      kitApiKey := some ("kk"), kitTagId := some ("tag1"), kitSequenceId := none }
    { httpMethod := "POST", headers := some [("stripe-signature", "t=1")],
      isBase64Encoded := false, body := none }
    { type := "checkout.session.completed",
      object := { customer_email := some ("a@b.co") } }
    (fun c => if c.path = "/subscribers"
      then Except.ok { status := 422, raw := "Email address already exists" }
      else Except.ok { status := 200, raw := "tagged" })
    { status := 422, raw := "Email address already exists" }
    (by decide) (by decide) (by decide) (by decide) (by decide) rfl (by decide)).1
    (by decide)

/-- Claim C10: in the tag variant a Kit response is a success only at
status exactly 200 or 201; any other status (202, 204, ...) sends the
upsert into the already-exists check and an unmatched body aborts with
processed:false, and sends the tag call to processed:false. -/
theorem C10_success_is_200_or_201 :
    ∀ (env : WebhookEnv) (ev : WebhookEvent) (sev : StripeEvent) (kit : KitOracle)
      (r : KitResult),
      ev.httpMethod = "POST" → v1ConfigOk env = true →
      jsTruthy (getHeader ev.headers ("stripe-signature")) = true →
      sev.type = "checkout.session.completed" →
      sessionEmail sev.object ≠ "" →
      kit (v1UpsertCall (sessionEmail sev.object) (v1FullName sev.object)) = Except.ok r →
      ((¬ (r.status = 200 ∨ r.status = 201) → isSubscriberAlreadyExists r.raw = false →
        (webhookHandlerV1 env ev (Except.ok sev) kit).resp.body.processed = some false ∧
        (webhookHandlerV1 env ev (Except.ok sev) kit).kitCalls =
          [v1UpsertCall (sessionEmail sev.object) (v1FullName sev.object)]) ∧
       ((r.status = 200 ∨ r.status = 201) →
        v1TagCall (env.kitTagId.getD "") (sessionEmail sev.object) ∈
          (webhookHandlerV1 env ev (Except.ok sev) kit).kitCalls) ∧
       (∀ t : KitResult,
        kit (v1TagCall (env.kitTagId.getD "") (sessionEmail sev.object)) = Except.ok t →
        (r.status = 200 ∨ r.status = 201) →
        (((t.status = 200 ∨ t.status = 201) →
          (webhookHandlerV1 env ev (Except.ok sev) kit).resp.body.processed = some true) ∧
         (¬ (t.status = 200 ∨ t.status = 201) →
          (webhookHandlerV1 env ev (Except.ok sev) kit).resp.body.processed = some false)))) := by
  intro env ev sev kit r hm hcfg hsig htype he hk
  rw [webhookV1_completed env ev sev kit hm hcfg hsig htype]
  have hsucc : ∀ q : KitResult, (q.status = 200 ∨ q.status = 201) → v1IsSuccess q = true := by
    intro q hq
    rcases hq with hq | hq <;> simp [v1IsSuccess, hq]
  have hfailv : ∀ q : KitResult, ¬ (q.status = 200 ∨ q.status = 201) → v1IsSuccess q = false := by
    intro q hq
    push_neg at hq
    simp [v1IsSuccess, hq.1, hq.2]
  refine ⟨?_, ?_, ?_⟩
  · intro hnot hnex
    have hf := hfailv r hnot
    simp [v1Process, he, v1Forward, hk, hf, hnex, response]
  · intro hok
    have hs := hsucc r hok
    rcases ht : kit (v1TagCall (env.kitTagId.getD "") (sessionEmail sev.object)) with e | t
    · simp [v1Process, he, v1Forward, hk, hs, ht]
    · by_cases hts : v1IsSuccess t = true <;>
        simp [v1Process, he, v1Forward, hk, hs, ht, hts]
  · intro t ht hok
    have hs := hsucc r hok
    constructor
    · intro htok
      have hts := hsucc t htok
      simp [v1Process, he, v1Forward, hk, hs, ht, hts, response]
    · intro htnot
      have hts := hfailv t htnot
      simp [v1Process, he, v1Forward, hk, hs, ht, hts, response]

/-- Witness for C10: a 202 upsert response with a neutral body takes the
failure path — processed:false and no tag call. -/
theorem C10_success_is_200_or_201_witness :
    (webhookHandlerV1
      { stripeKey := some ("sk"), webhookSecret := some ("wh"),
        kitApiKey := some ("kk"), kitTagId := some ("tag1"), kitSequenceId := none }
      { httpMethod := "POST", headers := some [("stripe-signature", "t=1")],
        isBase64Encoded := false, body := none }
      (Except.ok { type := "checkout.session.completed",
                   object := { customer_email := some ("a@b.co") } })
      (fun _ => Except.ok { status := 202, raw := "Accepted" })).resp.body.processed =
        some false ∧
    (webhookHandlerV1
      { stripeKey := some ("sk"), webhookSecret := some ("wh"),
        kitApiKey := some ("kk"), kitTagId := some ("tag1"), kitSequenceId := none }
      { httpMethod := "POST", headers := some [("stripe-signature", "t=1")],
        isBase64Encoded := false, body := none }
      (Except.ok { type := "checkout.session.completed",
                   object := { customer_email := some ("a@b.co") } })
      (fun _ => Except.ok { status := 202, raw := "Accepted" })).kitCalls =
        [v1UpsertCall ("a@b.co") ("")] := by
  exact (C10_success_is_200_or_201
    { stripeKey := some ("sk"), webhookSecret := some ("wh"),
      kitApiKey := some ("kk"), kitTagId := some ("tag1"), kitSequenceId := none }
    { httpMethod := "POST", headers := some [("stripe-signature", "t=1")],
      isBase64Encoded := false, body := none }
    { type := "checkout.session.completed",
      object := { customer_email := some ("a@b.co") } }
    (fun _ => Except.ok { status := 202, raw := "Accepted" })
    { status := 202, raw := "Accepted" }
    (by decide) (by decide) (by decide) (by decide) (by decide) rfl).1
    (by decide) (by decide)

lemma upsertFirst_nil : upsertFirstInTrace [] := by
  intro i hi
  exact absurd hi (Nat.not_lt_zero i)

lemma upsertFirst_cons (up : KitCall) (rest : List KitCall)
    (h : up.path = "/subscribers") : upsertFirstInTrace (up :: rest) := by
  intro i hi hne
  cases i with
  | zero => exact absurd h hne
  | succ n => exact ⟨0, Nat.succ_pos rest.length, Nat.succ_pos n, h⟩

lemma v1Process_trace_upsertFirst (kit : KitOracle) (tagId : String)
    (session : CheckoutSessionObj) :
    upsertFirstInTrace (v1Process kit tagId session).2 := by
  by_cases he : sessionEmail session = ""
  · simp only [v1Process, he]
    simp
    exact upsertFirst_nil
  · rcases hk : kit (v1UpsertCall (sessionEmail session) (v1FullName session)) with e | r
    · simp [v1Process, he, v1Forward, hk]
      exact upsertFirst_cons _ _ rfl
    · by_cases habort : (!v1IsSuccess r && !isSubscriberAlreadyExists r.raw) = true
      · simp [v1Process, he, v1Forward, hk, habort]
        exact upsertFirst_cons _ _ rfl
      · rcases ht : kit (v1TagCall tagId (sessionEmail session)) with e2 | t
        · simp [v1Process, he, v1Forward, hk, habort, ht]
          exact upsertFirst_cons _ _ rfl
        · by_cases hts : (!v1IsSuccess t) = true <;>
            · simp [v1Process, he, v1Forward, hk, habort, ht, hts]
              exact upsertFirst_cons _ _ rfl

lemma v2Process_trace_upsertFirst (kit : KitOracle) (seqId tagId : Option String)
    (session : CheckoutSessionObj) :
    upsertFirstInTrace (v2Process kit seqId tagId session).2 := by
  by_cases he : sessionEmail session = ""
  · simp only [v2Process, he]
    simp
    exact upsertFirst_nil
  · rcases hk : kitRequest kit (v2UpsertCall (sessionEmail session)
        (jsOrChain [session.metadata.bind (·.first_name)])
        (jsOrChain [session.metadata.bind (·.objective)])) with e | r
    · simp [v2Process, he, hk]
      exact upsertFirst_cons _ _ rfl
    · by_cases hs : jsTruthy seqId = true
      · rcases hq : kitRequest kit (v2SeqCall (seqId.getD "") (sessionEmail session)) with e2 | q
        · simp [v2Process, he, hk, hs, hq]
          exact upsertFirst_cons _ _ rfl
        · by_cases htg : jsTruthy tagId = true
          · rcases ht : kitRequest kit (v2TagCall (tagId.getD "") (sessionEmail session)) with e3 | t <;>
              · simp [v2Process, he, hk, hs, hq, v2TagStep, htg, ht]
                exact upsertFirst_cons _ _ rfl
          · simp [v2Process, he, hk, hs, hq, v2TagStep, htg]
            exact upsertFirst_cons _ _ rfl
      · by_cases htg : jsTruthy tagId = true
        · rcases ht : kitRequest kit (v2TagCall (tagId.getD "") (sessionEmail session)) with e3 | t <;>
            · simp [v2Process, he, hk, hs, v2TagStep, htg, ht]
              exact upsertFirst_cons _ _ rfl
        · simp [v2Process, he, hk, hs, v2TagStep, htg]
          exact upsertFirst_cons _ _ rfl

lemma webhookV1_trace_upsertFirst (env : WebhookEnv) (ev : WebhookEvent)
    (vr : Except String StripeEvent) (kit : KitOracle) :
    upsertFirstInTrace (webhookHandlerV1 env ev vr kit).kitCalls := by
  by_cases hm : ev.httpMethod = "POST"
  · cases h1 : jsTruthy env.stripeKey <;>
    cases h2 : jsTruthy env.webhookSecret <;>
    cases h3 : jsTruthy env.kitApiKey <;>
    cases h4 : jsTruthy env.kitTagId <;>
      try (simp [webhookHandlerV1, hm, h1, h2, h3, h4]; exact upsertFirst_nil)
    cases hsig : jsTruthy (getHeader ev.headers ("stripe-signature"))
    · simp [webhookHandlerV1, hm, h1, h2, h3, h4, hsig]
      exact upsertFirst_nil
    · rcases vr with msg | sev
      · simp [webhookHandlerV1, hm, h1, h2, h3, h4, hsig]
        exact upsertFirst_nil
      · by_cases htype : sev.type = "checkout.session.completed"
        · simp [webhookHandlerV1, hm, h1, h2, h3, h4, hsig, htype]
          exact v1Process_trace_upsertFirst _ _ _
        · simp [webhookHandlerV1, hm, h1, h2, h3, h4, hsig, htype]
          exact upsertFirst_nil
  · simp [webhookHandlerV1, hm]
    exact upsertFirst_nil

lemma webhookV2_trace_upsertFirst (env : WebhookEnv) (ev : WebhookEvent)
    (vr : Except String StripeEvent) (kit : KitOracle) :
    upsertFirstInTrace (webhookHandlerV2 env ev vr kit).kitCalls := by
  by_cases hm : ev.httpMethod = "POST"
  · cases hcfg : (!(jsTruthy env.stripeKey) || !(jsTruthy env.webhookSecret) ||
        !(jsTruthy env.kitApiKey) ||
        (!(jsTruthy env.kitSequenceId) && !(jsTruthy env.kitTagId)))
    · cases hsig : jsTruthy (getHeader ev.headers ("stripe-signature"))
      · simp only [webhookHandlerV2, hm]
        simp [hcfg, hsig]
        exact upsertFirst_nil
      · rcases vr with msg | sev
        · simp only [webhookHandlerV2, hm]
          simp [hcfg, hsig]
          exact upsertFirst_nil
        · by_cases htype : sev.type = "checkout.session.completed"
          · simp only [webhookHandlerV2, hm]
            simp [hcfg, hsig, htype]
            exact v2Process_trace_upsertFirst _ _ _ _
          · simp only [webhookHandlerV2, hm]
            simp [hcfg, hsig, htype]
            exact upsertFirst_nil
    · simp only [webhookHandlerV2, hm]
      simp [hcfg]
      exact upsertFirst_nil
  · simp [webhookHandlerV2, hm]
    exact upsertFirst_nil

lemma v1Forward_processed_true (kit : KitOracle) (tagId email fullName : String)
    (hp : (v1Forward kit tagId email fullName).1.processed = some true) :
    ∃ r t : KitResult,
      kit (v1UpsertCall email fullName) = Except.ok r ∧
      (v1IsSuccess r = true ∨ isSubscriberAlreadyExists r.raw = true) ∧
      kit (v1TagCall tagId email) = Except.ok t ∧ v1IsSuccess t = true ∧
      (v1Forward kit tagId email fullName).2 =
        [v1UpsertCall email fullName, v1TagCall tagId email] := by
  rcases hk : kit (v1UpsertCall email fullName) with e | r
  · simp [v1Forward, hk] at hp
  · by_cases habort : (!v1IsSuccess r && !isSubscriberAlreadyExists r.raw) = true
    · simp [v1Forward, hk, habort] at hp
    · rcases ht : kit (v1TagCall tagId email) with e2 | t
      · simp [v1Forward, hk, habort, ht] at hp
      · by_cases hts : (!v1IsSuccess t) = true
        · simp [v1Forward, hk, habort, ht, hts] at hp
        · refine ⟨r, t, rfl, ?_, rfl, ?_, ?_⟩
          · cases hr : v1IsSuccess r
            · cases ha : isSubscriberAlreadyExists r.raw
              · exact absurd (by simp [hr, ha]) habort
              · exact Or.inr rfl
            · exact Or.inl rfl
          · cases hv : v1IsSuccess t
            · exact absurd (by simp [hv]) hts
            · rfl
          · simp [v1Forward, hk, habort, ht, hts]

lemma kitRequest_ok {kit : KitOracle} {c : KitCall} {r : KitResult}
    (h : kitRequest kit c = Except.ok r) :
    kit c = Except.ok r ∧ fetchOk r.status = true := by
  rcases hk : kit c with e | q
  · simp [kitRequest, hk] at h
  · by_cases hf : fetchOk q.status = true
    · simp [kitRequest, hk, hf] at h
      subst h
      exact ⟨rfl, hf⟩
    · simp [kitRequest, hk, hf] at h

lemma v2Process_processed_true (kit : KitOracle) (seqId tagId : Option String)
    (session : CheckoutSessionObj)
    (hp : (v2Process kit seqId tagId session).1.processed = some true) :
    (∀ c ∈ (v2Process kit seqId tagId session).2,
      ∃ r : KitResult, kit c = Except.ok r ∧ fetchOk r.status = true) ∧
    (jsTruthy seqId = true →
      v2SeqCall (seqId.getD "") (sessionEmail session) ∈ (v2Process kit seqId tagId session).2) ∧
    (jsTruthy tagId = true →
      v2TagCall (tagId.getD "") (sessionEmail session) ∈ (v2Process kit seqId tagId session).2) := by
  by_cases he : sessionEmail session = ""
  · simp [v2Process, he] at hp
  · rcases hk : kitRequest kit (v2UpsertCall (sessionEmail session)
        (jsOrChain [session.metadata.bind (·.first_name)])
        (jsOrChain [session.metadata.bind (·.objective)])) with e | r
    · simp [v2Process, he, hk] at hp
    · by_cases hs : jsTruthy seqId = true
      · rcases hq : kitRequest kit (v2SeqCall (seqId.getD "") (sessionEmail session)) with e2 | q
        · simp [v2Process, he, hk, hs, hq] at hp
        · by_cases htg : jsTruthy tagId = true
          · rcases ht : kitRequest kit (v2TagCall (tagId.getD "") (sessionEmail session)) with e3 | t
            · simp [v2Process, he, hk, hs, hq, v2TagStep, htg, ht] at hp
            · refine ⟨?_, fun _ => ?_, fun _ => ?_⟩ <;>
                simp [v2Process, he, hk, hs, hq, v2TagStep, htg, ht]
              exact ⟨⟨r, kitRequest_ok hk⟩, ⟨q, kitRequest_ok hq⟩, ⟨t, kitRequest_ok ht⟩⟩
          · refine ⟨?_, fun _ => ?_, fun hcon => absurd hcon htg⟩ <;>
              simp [v2Process, he, hk, hs, hq, v2TagStep, htg]
            exact ⟨⟨r, kitRequest_ok hk⟩, ⟨q, kitRequest_ok hq⟩⟩
      · by_cases htg : jsTruthy tagId = true
        · rcases ht : kitRequest kit (v2TagCall (tagId.getD "") (sessionEmail session)) with e3 | t
          · simp [v2Process, he, hk, hs, v2TagStep, htg, ht] at hp
          · refine ⟨?_, fun hcon => absurd hcon hs, fun _ => ?_⟩ <;>
              simp [v2Process, he, hk, hs, v2TagStep, htg, ht]
            exact ⟨⟨r, kitRequest_ok hk⟩, ⟨t, kitRequest_ok ht⟩⟩
        · refine ⟨?_, fun hcon => absurd hcon hs, fun hcon => absurd hcon htg⟩
          simp [v2Process, he, hk, hs, v2TagStep, htg]
          exact ⟨r, kitRequest_ok hk⟩

/-- Claim C3 counterexample: in the tag variant an upsert answered 422
with an already-exists body followed by a successful tag call still
yields processed:true, although the upsert call did not succeed. -/
theorem C3_counterexample_processed_true_without_upsert_success :
    (webhookHandlerV1
      { stripeKey := some ("sk"), webhookSecret := some ("wh"),
        kitApiKey := some ("kk"), kitTagId := some ("tag1"), kitSequenceId := none }
      { httpMethod := "POST", headers := some [("stripe-signature", "t=1")],
        isBase64Encoded := false, body := none }
      (Except.ok { type := "checkout.session.completed",
                   object := { customer_email := some ("a@b.co") } })
      (fun c => if c.path = "/subscribers"
        then Except.ok { status := 422, raw := "Subscriber already exists" }
        else Except.ok { status := 200, raw := "tagged" })).resp.body.processed =
      some true ∧
    v1IsSuccess { status := 422, raw := "Subscriber already exists" } = false := by
  refine ⟨by decide, by decide⟩

/-- Claim C3 as amended: in every execution of either variant the
subscriber upsert precedes any tag or sequence call in the outbound
trace; the tag variant answers processed:true only when the tag call
succeeded and the upsert either succeeded or was tolerated as
already-exists; the sequence variant answers processed:true only when
every issued call got an ok response and every configured sequence/tag
call was issued. -/
theorem C3_upsert_before_tag :
    (∀ (env : WebhookEnv) (ev : WebhookEvent) (vr : Except String StripeEvent)
      (kit : KitOracle),
      upsertFirstInTrace (webhookHandlerV1 env ev vr kit).kitCalls ∧
      upsertFirstInTrace (webhookHandlerV2 env ev vr kit).kitCalls) ∧
    (∀ (kit : KitOracle) (tagId email fullName : String),
      (v1Forward kit tagId email fullName).1.processed = some true →
      ∃ r t : KitResult,
        kit (v1UpsertCall email fullName) = Except.ok r ∧
        (v1IsSuccess r = true ∨ isSubscriberAlreadyExists r.raw = true) ∧
        kit (v1TagCall tagId email) = Except.ok t ∧ v1IsSuccess t = true ∧
        (v1Forward kit tagId email fullName).2 =
          [v1UpsertCall email fullName, v1TagCall tagId email]) ∧
    (∀ (kit : KitOracle) (seqId tagId : Option String) (session : CheckoutSessionObj),
      (v2Process kit seqId tagId session).1.processed = some true →
      (∀ c ∈ (v2Process kit seqId tagId session).2,
        ∃ r : KitResult, kit c = Except.ok r ∧ fetchOk r.status = true) ∧
      (jsTruthy seqId = true →
        v2SeqCall (seqId.getD "") (sessionEmail session) ∈
          (v2Process kit seqId tagId session).2) ∧
      (jsTruthy tagId = true →
        v2TagCall (tagId.getD "") (sessionEmail session) ∈
          (v2Process kit seqId tagId session).2)) := by
  refine ⟨?_, ?_, ?_⟩
  · intro env ev vr kit
    exact ⟨webhookV1_trace_upsertFirst env ev vr kit, webhookV2_trace_upsertFirst env ev vr kit⟩
  · intro kit tagId email fullName hp
    exact v1Forward_processed_true kit tagId email fullName hp
  · intro kit seqId tagId session hp
    exact v2Process_processed_true kit seqId tagId session hp

/-- Witness for C3 at concrete inputs: a successful tag-variant forward
satisfies the success condition, applied to a concrete oracle. -/
theorem C3_upsert_before_tag_witness :
    upsertFirstInTrace
      (webhookHandlerV1
        { stripeKey := some ("sk"), webhookSecret := some ("wh"),
          kitApiKey := some ("kk"), kitTagId := some ("tag1"), kitSequenceId := none }
        { httpMethod := "POST", headers := some [("stripe-signature", "t=1")],
          isBase64Encoded := false, body := none }
        (Except.ok { type := "checkout.session.completed",
                     object := { customer_email := some ("a@b.co") } })
        (fun _ => Except.ok { status := 200, raw := "ok" })).kitCalls ∧
    ∃ r t : KitResult,
      (fun (_ : KitCall) => (Except.ok { status := 200, raw := "ok" } : Except String KitResult))
          (v1UpsertCall ("a@b.co") ("")) = Except.ok r ∧
      (v1IsSuccess r = true ∨ isSubscriberAlreadyExists r.raw = true) ∧
      (fun (_ : KitCall) => (Except.ok { status := 200, raw := "ok" } : Except String KitResult))
          (v1TagCall ("tag1") ("a@b.co")) = Except.ok t ∧ v1IsSuccess t = true ∧
      (v1Forward (fun _ => Except.ok { status := 200, raw := "ok" }) ("tag1") ("a@b.co") ("")).2 =
        [v1UpsertCall ("a@b.co") (""), v1TagCall ("tag1") ("a@b.co")] := by
  constructor
  · exact (C3_upsert_before_tag.1
      { stripeKey := some ("sk"), webhookSecret := some ("wh"),
        kitApiKey := some ("kk"), kitTagId := some ("tag1"), kitSequenceId := none }
      { httpMethod := "POST", headers := some [("stripe-signature", "t=1")],
        isBase64Encoded := false, body := none }
      (Except.ok { type := "checkout.session.completed",
                   object := { customer_email := some ("a@b.co") } })
      (fun _ => Except.ok { status := 200, raw := "ok" })).1
  · exact C3_upsert_before_tag.2.1
      (fun _ => Except.ok { status := 200, raw := "ok" }) ("tag1") ("a@b.co") ("") (by decide)

lemma idemTrace_true (kit : KitOracle) (tagId email fullName : String) (n : Nat) :
    idemTrace kit tagId email fullName n "true" =
      List.replicate n
        ({ received := some true, processed := some false, idempotent := some true },
         ([] : List KitCall)) := by
  induction n with
  | zero => rfl
  | succ k ih => simp [idemTrace, idemInvoke, List.replicate_succ, ih]

lemma idemForwardCount_replicate_zero (n : Nat) :
    idemForwardCount (List.replicate n
      ({ received := some true, processed := some false, idempotent := some true },
       ([] : List KitCall))) = 0 := by
  induction n with
  | zero => rfl
  | succ k ih =>
    unfold idemForwardCount at ih ⊢
    simp [List.replicate_succ, List.countP_cons, ih]

lemma idemForwardCount_le_one (kit : KitOracle) (tagId email fullName : String) :
    ∀ (n : Nat) (flag : String),
      idemForwardCount (idemTrace kit tagId email fullName n flag) ≤ 1 := by
  intro n
  induction n with
  | zero => intro flag; simp [idemTrace, idemForwardCount]
  | succ k ih =>
    intro flag
    by_cases hf : flag = "true"
    · subst hf
      rw [idemTrace_true, idemForwardCount_replicate_zero]
      exact Nat.zero_le 1
    · by_cases hp : (v1Forward kit tagId email fullName).1.processed = some true
      · have htr : idemTrace kit tagId email fullName (Nat.succ k) flag =
            v1Forward kit tagId email fullName ::
              idemTrace kit tagId email fullName k "true" := by
          simp [idemTrace, idemInvoke, hf, hp]
        rw [htr]
        have h0 : idemForwardCount (idemTrace kit tagId email fullName k "true") = 0 := by
          rw [idemTrace_true]
          exact idemForwardCount_replicate_zero k
        unfold idemForwardCount at h0 ⊢
        rw [List.countP_cons, h0]
        simp [hp]
      · have htr : idemTrace kit tagId email fullName (Nat.succ k) flag =
            v1Forward kit tagId email fullName ::
              idemTrace kit tagId email fullName k flag := by
          simp [idemTrace, idemInvoke, hf, hp]
        rw [htr]
        have hk := ih flag
        unfold idemForwardCount at hk ⊢
        rw [List.countP_cons]
        simpa [hp] using hk

/-- Claim C1, against the spec-modelled idempotency variant (the flag is
written by create-checkout-session.js but no webhook variant under src/
reads it): an invocation finding kit_sync_completed already true
short-circuits with an idempotent acknowledgement and makes no Kit call;
replays after that point stay short-circuited; and over any chain of
replays at most one invocation completes a forward (processed:true). -/
theorem C1_idempotency_at_most_once :
    ∀ (kit : KitOracle) (tagId email fullName : String) (n : Nat) (flag : String),
      idemInvoke kit tagId email fullName "true" =
        (({ received := some true, processed := some false, idempotent := some true },
          ([] : List KitCall)), "true") ∧
      idemTrace kit tagId email fullName n "true" =
        List.replicate n
          ({ received := some true, processed := some false, idempotent := some true },
           ([] : List KitCall)) ∧
      idemForwardCount (idemTrace kit tagId email fullName n flag) ≤ 1 := by
  intro kit tagId email fullName n flag
  exact ⟨rfl, idemTrace_true kit tagId email fullName n,
         idemForwardCount_le_one kit tagId email fullName n flag⟩

/-- Witness for C2 at concrete inputs: a verified event of a non-matching
type is answered 200 received:true. -/
theorem C2_always_200_after_verification_witness :
    (webhookHandlerV1
      { stripeKey := some ("sk"), webhookSecret := some ("wh"),
        kitApiKey := some ("kk"), kitTagId := some ("tag1"), kitSequenceId := none }
      { httpMethod := "POST", headers := some [("stripe-signature", "t=1")],
        isBase64Encoded := false, body := none }
      (Except.ok { type := "payment_intent.created", object := {} })
      (fun _ => Except.error "down")).verifyAttempted = true ∧
    (webhookHandlerV1
      { stripeKey := some ("sk"), webhookSecret := some ("wh"),
        kitApiKey := some ("kk"), kitTagId := some ("tag1"), kitSequenceId := none }
      { httpMethod := "POST", headers := some [("stripe-signature", "t=1")],
        isBase64Encoded := false, body := none }
      (Except.ok { type := "payment_intent.created", object := {} })
      (fun _ => Except.error "down")).resp.statusCode = 200 ∧
    (webhookHandlerV1
      { stripeKey := some ("sk"), webhookSecret := some ("wh"),
        kitApiKey := some ("kk"), kitTagId := some ("tag1"), kitSequenceId := none }
      { httpMethod := "POST", headers := some [("stripe-signature", "t=1")],
        isBase64Encoded := false, body := none }
      (Except.ok { type := "payment_intent.created", object := {} })
      (fun _ => Except.error "down")).resp.body.received = some true := by
  refine ⟨by decide, ?_⟩
  exact (C2_always_200_after_verification
    { stripeKey := some ("sk"), webhookSecret := some ("wh"),
      kitApiKey := some ("kk"), kitTagId := some ("tag1"), kitSequenceId := none }
    { httpMethod := "POST", headers := some [("stripe-signature", "t=1")],
      isBase64Encoded := false, body := none }
    { type := "payment_intent.created", object := {} }
    (fun _ => Except.error "down")).1 (by decide)
